import Mathlib

/-!
Formal model of the detection and consolidation engine of the file-audit agent.

The Python source (src/agent/detectors.py, src/agent/report.py,
src/agent/parsers.py, src/agent/core.py) is embedded shallowly:

* Python dicts become ordered association lists (`dget?` / `dinsert`
  reproduce dict lookup and insertion-order-preserving update);
* Python floats become exact rationals (`Rat`); the float literals
  `1.5`, `3`, `0.1` of the volume detector are modelled as the exact
  rationals 3/2, 3, 1/10, and numbers interpolated into free-text
  description fields are rendered with Lean's canonical `toString`;
* `datetime` values become a civil `Date` (year/month/day) plus naive
  wall-clock fields; ordering of datetimes is modelled by the order of
  their microsecond offsets from the epoch, which is the same order;
* code that can raise is modelled in `Except PyError`; code whose
  exceptions are swallowed (`try ... except: pass`) is modelled by
  `Option` with the source's recovery behaviour.
-/

namespace Simetrik

/-! ## Basic character and string utilities (Python string semantics) -/

/-- ASCII digit test; models Python `str.isdigit` per character (ASCII range). -/
def isAsciiDigit (c : Char) : Bool := '0' ≤ c && c ≤ '9'

/-- Python whitespace characters stripped by `str.strip()` / matched by `\s`. -/
def isPyWS (c : Char) : Bool :=
  c == ' ' || c == '\t' || c == '\n' || c == '\r' || c == Char.ofNat 11 || c == Char.ofNat 12

/-- `str.strip()`. -/
def pyStrip (s : String) : String :=
  ⟨((s.toList.dropWhile isPyWS).reverse.dropWhile isPyWS).reverse⟩

/-- Does `hay` begin with `pat`? -/
def listStarts : List Char → List Char → Bool
  | [], _ => true
  | _ :: _, [] => false
  | a :: n, b :: h => a == b && listStarts n h

/-- Does `pat` occur anywhere in `hay`?  Models Python `pat in hay`. -/
def listOccurs (pat : List Char) : List Char → Bool
  | [] => listStarts pat []
  | c :: t => listStarts pat (c :: t) || listOccurs pat t

/-- Python `needle in hay` on strings. -/
def pyIn (needle hay : String) : Bool := listOccurs needle.toList hay.toList

/-- `str.startswith` with a single-character pattern. -/
def startsWithChar (s : String) (c : Char) : Bool :=
  match s.toList with
  | [] => false
  | a :: _ => a == c

/-- Split on a single-character separator, accumulator-style.
Models Python `str.split(c)` (which keeps empty fields). -/
def splitCharAux (sep : Char) : List Char → List Char → List (List Char)
  | [], cur => [cur.reverse]
  | c :: rest, cur =>
      if c == sep then cur.reverse :: splitCharAux sep rest []
      else splitCharAux sep rest (c :: cur)

/-- Python `s.split(c)` for a single-character separator. -/
def pySplitChar (s : String) (sep : Char) : List String :=
  (splitCharAux sep s.toList []).map fun l => ⟨l⟩

/-- Fuelled splitter on a multi-character separator (fuel bounds the scan;
it is always called with enough fuel to finish). -/
def splitStrGo (sep : List Char) : Nat → List Char → List Char → List (List Char)
  | 0, rest, cur => [cur.reverse ++ rest]
  | _ + 1, [], cur => [cur.reverse]
  | n + 1, c :: t, cur =>
      if listStarts sep (c :: t) && !sep.isEmpty then
        cur.reverse :: splitStrGo sep n ((c :: t).drop sep.length) []
      else
        splitStrGo sep n t (c :: cur)

/-- Python `s.split(sep)` for a non-empty separator string. -/
def pySplitStr (s sep : String) : List String :=
  (splitStrGo sep.toList (s.toList.length + 1) s.toList []).map fun l => ⟨l⟩

/-- Python `s.split(sep, 1)`: split only at the first occurrence. -/
def pySplitFirst (s sep : String) : List String :=
  match pySplitStr s sep with
  | [] => [s]
  | a :: rest => if rest.isEmpty then [a] else [a, String.intercalate sep rest]

/-- Python `s.replace(old, new)` for a non-empty `old`. -/
def pyReplace (s old new : String) : String :=
  String.intercalate new (pySplitStr s old)

/-- Python `s.replace('.', '', 1)`: drop the first dot only. -/
def dropFirstDot : List Char → List Char
  | [] => []
  | c :: t => if c == '.' then t else c :: dropFirstDot t

/-- Python `s.lower()` (ASCII model). -/
def pyLower (s : String) : String := ⟨s.toList.map Char.toLower⟩

/-- Numeric value of a list of ASCII digits. -/
def natOfDigits (cs : List Char) : Nat :=
  cs.foldl (fun n c => n * 10 + (c.toNat - 48)) 0

/-! ## Python numeric coercion used by the profile parser

The parser guards every coercion: `float(x) if x.replace('.','',1).isdigit()
else 0` and `int(x) if x.isdigit() else 0`.  These never raise. -/

/-- Python `s.isdigit()` (ASCII model): nonempty and all digits. -/
def pyIsDigit (s : String) : Bool := !s.toList.isEmpty && s.toList.all isAsciiDigit

/-- The guard `s.replace('.','',1).isdigit()` used before `float(s)`. -/
def pyFloatCheck (s : String) : Bool := pyIsDigit ⟨dropFirstDot s.toList⟩

/-- Exact value of a decimal literal consisting of digits and at most one dot. -/
def ratOfDecimal (cs : List Char) : Rat :=
  let intPart := cs.takeWhile (fun c => !(c == '.'))
  let fracPart := (cs.dropWhile (fun c => !(c == '.'))).drop 1
  (natOfDigits intPart : Rat) + mkRat (natOfDigits fracPart) (10 ^ fracPart.length)

/-- `float(s) if s.replace('.','',1).isdigit() else 0` (floats as exact rationals). -/
def pyFloat (s : String) : Rat := if pyFloatCheck s then ratOfDecimal s.toList else 0

/-- `int(s) if s.isdigit() else 0`. -/
def pyInt (s : String) : Nat := if pyIsDigit s then natOfDigits s.toList else 0

/-! ## Ordered dictionaries (Python `dict`) -/

/-- `d.get(k)` on an insertion-ordered dict. -/
def dget? {α : Type} (l : List (String × α)) (k : String) : Option α :=
  (l.find? fun p => p.1 == k).map fun p => p.2

/-- `d[k] = v`: replace in place if the key exists, else append. -/
def dinsert {α : Type} (l : List (String × α)) (k : String) (v : α) : List (String × α) :=
  if l.any fun p => p.1 == k then
    l.map fun p => if p.1 == k then (k, v) else p
  else l ++ [(k, v)]

/-! ## Calendar arithmetic (Python `datetime.date` / `datetime.datetime`) -/

/-- A civil calendar date. -/
structure Date where
  year : Int
  month : Nat
  day : Nat
deriving DecidableEq, Repr

/-- Days since 1970-01-01 of a civil date (standard civil-from-days inverse). -/
def daysFromCivil (y : Int) (m d : Nat) : Int :=
  let y2 : Int := if m ≤ 2 then y - 1 else y
  let era : Int := (if 0 ≤ y2 then y2 else y2 - 399).tdiv 400
  let yoe : Int := y2 - era * 400
  let mp : Nat := (m + 9) % 12
  let doy : Int := ((153 * mp + 2) / 5 : Nat) + (d : Int) - 1
  let doe : Int := yoe * 365 + yoe.tdiv 4 - yoe.tdiv 100 + doy
  era * 146097 + doe - 719468

/-- Epoch-day ordinal of a date. -/
def Date.toOrdinal (d : Date) : Int := daysFromCivil d.year d.month d.day

inductive Weekday
  | mon | tue | wed | thu | fri | sat | sun
deriving DecidableEq, Repr

/-- `strftime("%a")` label. -/
def Weekday.abbrevName : Weekday → String
  | .mon => "Mon" | .tue => "Tue" | .wed => "Wed" | .thu => "Thu"
  | .fri => "Fri" | .sat => "Sat" | .sun => "Sun"

/-- `strftime("%A")` label. -/
def Weekday.fullName : Weekday → String
  | .mon => "Monday" | .tue => "Tuesday" | .wed => "Wednesday" | .thu => "Thursday"
  | .fri => "Friday" | .sat => "Saturday" | .sun => "Sunday"

def Weekday.ofIdx (n : Nat) : Weekday :=
  match n with
  | 0 => .mon | 1 => .tue | 2 => .wed | 3 => .thu | 4 => .fri | 5 => .sat | _ => .sun

/-- Day of week of a date (1970-01-01 was a Thursday). -/
def Date.weekday (d : Date) : Weekday :=
  Weekday.ofIdx ((d.toOrdinal + 3).emod 7).toNat

def isLeapYear (y : Int) : Bool := (y % 4 == 0 && y % 100 != 0) || y % 400 == 0

def daysInMonth (y : Int) (m : Nat) : Nat :=
  match m with
  | 1 => 31 | 2 => if isLeapYear y then 29 else 28 | 3 => 31 | 4 => 30
  | 5 => 31 | 6 => 30 | 7 => 31 | 8 => 31 | 9 => 30 | 10 => 31 | 11 => 30 | 12 => 31
  | _ => 0

/-- The dates representable by Python `datetime.date`. -/
def Date.Valid (d : Date) : Prop :=
  1 ≤ d.year ∧ 1 ≤ d.month ∧ d.month ≤ 12 ∧ 1 ≤ d.day ∧ d.day ≤ daysInMonth d.year d.month

instance (d : Date) : Decidable d.Valid := by
  unfold Date.Valid; infer_instance

/-- A time of day as parsed by `strptime(s, "%H:%M:%S")`. -/
structure TimeHMS where
  hour : Nat
  min : Nat
  sec : Nat
deriving DecidableEq, Repr

/-- `datetime.strptime(s, "%H:%M:%S")`: three colon-separated fields of one
or two digits, with the ranges `%H` 0-23, `%M` 0-59, `%S` 0-61. -/
def parseHMS (s : String) : Option TimeHMS :=
  match pySplitChar s ':' with
  | [h, m, sec] =>
      let fieldOk := fun (t : String) =>
        (t.toList.length == 1 || t.toList.length == 2) && t.toList.all isAsciiDigit
      if fieldOk h && fieldOk m && fieldOk sec then
        let hv := natOfDigits h.toList
        let mv := natOfDigits m.toList
        let sv := natOfDigits sec.toList
        if hv ≤ 23 && mv ≤ 59 && sv ≤ 61 then some ⟨hv, mv, sv⟩ else none
      else none
  | _ => none

/-- A timezone-naive `datetime` value. -/
structure NaiveDT where
  date : Date
  hour : Nat
  minute : Nat
  second : Nat
  micro : Nat
deriving DecidableEq, Repr

/-- Microseconds since the epoch; `datetime` comparison is this order. -/
def NaiveDT.toMicros (t : NaiveDT) : Int :=
  t.date.toOrdinal * 86400000000 +
    (((t.hour * 3600 + t.minute * 60 + t.second) * 1000000 + t.micro : Nat) : Int)

/-- Shape check for the timezone tail `±HH:MM[:SS[.ffffff]]` accepted by
`datetime.fromisoformat` (the parsed offset is immediately dropped by the
detector, so only well-formedness matters). -/
def tzTailOk : List Char → Bool
  | [] => true
  | c :: rest =>
      (c == '+' || c == '-') &&
      match rest with
      | h1 :: h2 :: ':' :: m1 :: m2 :: rest2 =>
          [h1, h2, m1, m2].all isAsciiDigit &&
          natOfDigits [h1, h2] ≤ 23 && natOfDigits [m1, m2] ≤ 59 &&
          (match rest2 with
           | [] => true
           | ':' :: s1 :: s2 :: rest3 =>
               [s1, s2].all isAsciiDigit && natOfDigits [s1, s2] ≤ 59 &&
               (match rest3 with
                | [] => true
                | '.' :: ds => ds.length == 6 && ds.all isAsciiDigit
                | _ => false)
           | _ => false)
      | _ => false

/-- Fractional-seconds tail: absent, or a dot followed by exactly 3 or 6
digits, as accepted by `datetime.fromisoformat`. -/
def parseFracTail (cs : List Char) : Option (Nat × List Char) :=
  match cs with
  | '.' :: rest =>
      let ds := rest.takeWhile isAsciiDigit
      let tail := rest.drop ds.length
      if ds.length == 3 then some (natOfDigits ds * 1000, tail)
      else if ds.length == 6 then some (natOfDigits ds, tail)
      else none
  | _ => some (0, cs)

/-- The `HH[:MM[:SS[.ffffff]]][±HH:MM]` tail of an ISO-8601 timestamp. -/
def parseTimeTail (cs : List Char) : Option (Nat × Nat × Nat × Nat) :=
  match cs with
  | h1 :: h2 :: rest =>
      if isAsciiDigit h1 && isAsciiDigit h2 then
        let hv := natOfDigits [h1, h2]
        if hv ≤ 23 then
          match rest with
          | ':' :: m1 :: m2 :: rest2 =>
              if isAsciiDigit m1 && isAsciiDigit m2 && natOfDigits [m1, m2] ≤ 59 then
                let mv := natOfDigits [m1, m2]
                match rest2 with
                | ':' :: s1 :: s2 :: rest3 =>
                    if isAsciiDigit s1 && isAsciiDigit s2 && natOfDigits [s1, s2] ≤ 59 then
                      let sv := natOfDigits [s1, s2]
                      match parseFracTail rest3 with
                      | none => none
                      | some (mic, rest4) =>
                          if tzTailOk rest4 then some (hv, mv, sv, mic) else none
                    else none
                | _ => if tzTailOk rest2 then some (hv, mv, 0, 0) else none
              else none
          | _ => if tzTailOk rest then some (hv, 0, 0, 0) else none
        else none
      else none
  | _ => none

/-- `datetime.fromisoformat(s)` followed by `.replace(tzinfo=None)`:
the naive (wall-clock) value of an ISO-8601 timestamp, or `none` when
parsing would raise `ValueError`. -/
def parseIsoDT (s : String) : Option NaiveDT :=
  match s.toList with
  | y1 :: y2 :: y3 :: y4 :: '-' :: m1 :: m2 :: '-' :: d1 :: d2 :: rest =>
      if [y1, y2, y3, y4, m1, m2, d1, d2].all isAsciiDigit then
        let y : Int := (natOfDigits [y1, y2, y3, y4] : Nat)
        let mo := natOfDigits [m1, m2]
        let da := natOfDigits [d1, d2]
        if 1 ≤ y && 1 ≤ mo && mo ≤ 12 && 1 ≤ da && da ≤ daysInMonth y mo then
          match rest with
          | [] => some ⟨⟨y, mo, da⟩, 0, 0, 0, 0⟩
          | _sep :: trest =>
              (parseTimeTail trest).map fun q => ⟨⟨y, mo, da⟩, q.1, q.2.1, q.2.2.1, q.2.2.2⟩
        else none
      else none
  | _ => none

/-- Zero-pad a natural to two digits. -/
def pad2 (n : Nat) : String := if n < 10 then "0" ++ toString n else toString n

/-- Zero-pad a natural to four digits. -/
def pad4 (n : Nat) : String :=
  if n < 10 then "000" ++ toString n
  else if n < 100 then "00" ++ toString n
  else if n < 1000 then "0" ++ toString n
  else toString n

/-- Zero-pad a natural to six digits. -/
def pad6 (n : Nat) : String :=
  let s := toString n
  let k := s.toList.length
  ⟨List.replicate (6 - k) '0'⟩ ++ s

/-- Python `str(date)`. -/
def renderDate (d : Date) : String :=
  pad4 d.year.toNat ++ "-" ++ pad2 d.month ++ "-" ++ pad2 d.day

/-- Python `str(datetime)` for a naive datetime. -/
def renderDT (t : NaiveDT) : String :=
  renderDate t.date ++ " " ++ pad2 t.hour ++ ":" ++ pad2 t.minute ++ ":" ++ pad2 t.second ++
    (if t.micro == 0 then "" else "." ++ pad6 t.micro)

/-! ## Regex fragments used by the profile parser (src/agent/parsers.py)

The parser only uses a handful of fixed patterns; each is modelled by a
direct executable description of its match semantics:

* `LIT.*?\n(\|.*\|\n)+` with `re.DOTALL` (the four table headings):
  `re.search` takes the first occurrence of the literal heading that can be
  completed; the lazy `.*?` then stops at the first newline that is
  immediately followed by `|` and eventually by a `|`-newline pair; since
  `.` also matches newlines and nothing follows the group, the greedy
  `(\|.*\|\n)+` extends to the last `|\n` of the document.
* `LIT(cls+)` (resource id, per-cell `Median Files/Rows`): the first
  occurrence of the literal followed by a nonempty run of class characters.
-/

/-- All positions at which `pat` occurs in `cs`. -/
def occPositions (pat cs : List Char) : List Nat :=
  (List.range (cs.length + 1)).filter fun i => listStarts pat (cs.drop i)

/-- Does `heading` occur in `content`?  (`re.search` of the literal succeeds.) -/
def hasSubstrS (content heading : String) : Bool :=
  !(occPositions heading.toList content.toList).isEmpty

/-- Positions `r ≥ lo` such that `cs` has `|` at `r-2` and a newline at `r-1`
(the possible end positions of a `\|.*\|\n` unit). -/
def blockEnds (cs : List Char) (lo : Nat) : List Nat :=
  (List.range (cs.length + 1)).filter fun r =>
    lo ≤ r && cs[r - 2]? == some '|' && cs[r - 1]? == some '\n'

/-- Completion of `LIT.*?\n(\|.*\|\n)+` after the literal ends at `a`:
the end position of the whole match, if any. -/
def tableBlockEnd (cs : List Char) (a : Nat) : Option Nat :=
  (((List.range cs.length).filter fun q =>
      a ≤ q && cs[q]? == some '\n' && cs[q + 1]? == some '|' &&
        !(blockEnds cs (q + 4)).isEmpty).head?).bind
    fun q => (blockEnds cs (q + 4)).getLast?

/-- `re.search(heading + r'.*?\n(\|.*\|\n)+', content, re.DOTALL)`, returning
`group(0)`. -/
def findTableBlock (heading content : String) : Option String :=
  let cs := content.toList
  let lit := heading.toList
  (occPositions lit cs).findSome? fun s =>
    (tableBlockEnd cs (s + lit.length)).map fun e => ⟨(cs.drop s).take (e - s)⟩

/-- `re.search(lit + '(cls+)', s)`: group 1 of the first occurrence of the
literal that is followed by at least one character of the class. -/
def regexLabelClass (lit : String) (cls : Char → Bool) (s : String) : Option String :=
  let cs := s.toList
  let l := lit.toList
  (occPositions l cs).findSome? fun i =>
    let run := (cs.drop (i + l.length)).takeWhile cls
    if run.isEmpty then none else some ⟨run⟩

/-! ## Data model (src/agent/models.py) -/

inductive IncidentSeverity
  | URGENT | NEEDS_ATTENTION | ALL_GOOD
deriving DecidableEq, Repr

inductive IncidentType
  | MISSING_FILE | DUPLICATED_FILE | UNEXPECTED_EMPTY
  | VOLUME_VARIATION | LATE_UPLOAD | PREVIOUS_FILE
deriving DecidableEq, Repr

/-- A value stored in an incident's free-form `details` dict. -/
inductive DetailValue
  | nat (n : Nat)
  | rat (q : Rat)
  | str (s : String)
  | bool (b : Bool)
deriving DecidableEq, Repr

structure Incident where
  incident_type : IncidentType
  severity : IncidentSeverity
  description : String
  recommendation : String
  source_id : String
  file_name : Option String := none
  details : List (String × DetailValue) := []
deriving DecidableEq, Repr

structure FileMetadata where
  filename : String
  rows : Nat
  status : String
  is_duplicated : Bool
  file_size : Option Rat := none
  uploaded_at : String
  status_message : Option String := none
deriving DecidableEq, Repr

/-- One row of the "File Processing Statistics by Day" table, as produced by
`CVParser._extract_file_stats` (all six keys are always present). -/
structure FileDayStats where
  mean : Rat
  median : Rat
  mode : Rat
  min : Nat
  max : Nat
  std_dev : Rat
deriving DecidableEq, Repr

/-- One `{"start":…, "end":…}` upload-window entry.  The Python dict key
`end` is a Lean keyword, hence the field name `endT`. -/
structure UploadWindow where
  start : Option String
  endT : Option String
deriving DecidableEq, Repr

/-- Per-entity per-(full)weekday statistics, as produced by
`CVParser._extract_entity_stats` (both keys always present). -/
structure EntityDayStats where
  median_files : Rat
  median_rows : Rat
deriving DecidableEq, Repr

structure SourceCV where
  source_id : String
  expected_files_by_day : List (String × FileDayStats)
  upload_window_by_day : List (String × UploadWindow)
  filename_patterns : List String
  entity_stats : List (String × List (String × EntityDayStats))
  empty_file_stats : List (String × List (String × Rat)) := []
deriving DecidableEq, Repr

structure SourceReport where
  source_id : String
  status : IncidentSeverity
  incidents : List Incident
  processed_files_count : Nat := 0
  total_rows : Nat := 0
deriving DecidableEq, Repr

/-! ## Profile parser (src/agent/parsers.py)

`CVParser.parse` reads the profile document and runs six extractors.  Two of
them can raise on a readable document (`_extract_upload_window` via tuple
unpacking of a `split`, `_extract_entity_stats` via indexing `[0]` into a
possibly-empty list and via `float` on a dot-only group), so they and
`parse` live in `Except PyError`.  All the numeric coercions of the
file-count and day-of-week-summary tables are guarded and total. -/

/-- The exceptions the parser can raise on a readable document. -/
inductive PyError
  | valueError
  | indexError
deriving DecidableEq, Repr

namespace CVParser

/-- `[c.strip() for c in row.split('|') if c.strip()]`. -/
def rowCols (row : String) : List String :=
  ((pySplitChar row '|').map pyStrip).filter fun c => !(c == "")

def extract_source_id (content : String) : String :=
  match regexLabelClass "**Resource ID**: " isAsciiDigit content with
  | some g => g
  | none => "Unknown"

def extract_file_stats (content : String) : List (String × FileDayStats) :=
  match findTableBlock "File Processing Statistics by Day" content with
  | none => []
  | some table_str =>
      let rows := pySplitChar (pyStrip table_str) '\n'
      let data_rows := rows.filter fun r =>
        startsWithChar r '|' && !pyIn "---" r && !pyIn "Mean Files" r
      data_rows.foldl (fun stats row =>
        let cols := rowCols row
        if 7 ≤ cols.length then
          dinsert stats (cols.getD 0 "")
            { mean := pyFloat (cols.getD 1 ""), median := pyFloat (cols.getD 2 "")
              mode := pyFloat (cols.getD 3 ""), min := pyInt (cols.getD 5 "")
              max := pyInt (cols.getD 6 ""), std_dev := pyFloat (cols.getD 4 "") }
        else stats) []

/-- `side.strip().replace(' UTC', '')` for one half of a window cell. -/
def winSide (s : String) : String := pyReplace (pyStrip s) " UTC" ""

def extract_upload_window (content : String) :
    Except PyError (List (String × UploadWindow)) :=
  match findTableBlock "Upload Schedule Patterns by Day" content with
  | none => .ok []
  | some table_str =>
      let rows := pySplitChar (pyStrip table_str) '\n'
      let data_rows := rows.filter fun r =>
        startsWithChar r '|' && !pyIn "---" r && !pyIn "Upload Hour" r
      data_rows.foldlM (fun windows row =>
        let cols := rowCols row
        if 6 ≤ cols.length then
          let day := cols.getD 0 ""
          let window_str := cols.getD 5 ""
          if pyIn "–" window_str then
            match pySplitStr window_str "–" with
            | [a, b] => .ok (dinsert windows day ⟨some (winSide a), some (winSide b)⟩)
            | _ => .error .valueError  -- `start, end = …` unpacking fails
          else if pyIn "-" window_str then
            match pySplitStr window_str "-" with
            | [a, b] => .ok (dinsert windows day ⟨some (winSide a), some (winSide b)⟩)
            | _ => .error .valueError
          else .ok (dinsert windows day ⟨none, none⟩)
        else .ok windows) []

def extract_filename_patterns (content : String) : List String :=
  let cs := content.toList
  let lit := "Generic structure".toList
  let bt := Char.ofNat 96  -- backtick
  match (occPositions lit cs).findSome? (fun i =>
      let afterWS := (cs.drop (i + lit.length)).dropWhile isPyWS
      match afterWS with
      | c :: t =>
          if c == bt then
            let grp := t.takeWhile fun x => !(x == bt)
            if !grp.isEmpty && (t.drop grp.length).head? == some bt then
              some (⟨grp⟩ : String)
            else none
          else none
      | [] => none) with
  | some p => [p]
  | none => []

/-- The character class `[\d\.]` of the entity-cell patterns. -/
def digitDot (c : Char) : Bool := isAsciiDigit c || c == '.'

/-- `float(g)` where `g` was matched by `([\d\.]+)`: raises unless the run
has at most one dot and at least one digit. -/
def floatOfClassRun (g : String) : Except PyError Rat :=
  if (g.toList.filter fun c => c == '.').length ≤ 1 && g.toList.any isAsciiDigit then
    .ok (ratOfDecimal g.toList)
  else .error .valueError

/-- The per-day cell loop of `_extract_entity_stats` for one entity row. -/
def entityDayFold (days : List String) (cells : List String) :
    Except PyError (List (String × EntityDayStats)) :=
  ((List.range cells.length).zip cells).foldlM (fun acc p =>
    if p.1 < days.length then do
      let day_name := days.getD p.1 ""
      let mf ← match regexLabelClass "Median Files: " digitDot p.2 with
               | none => .ok (0 : Rat)
               | some g => floatOfClassRun g
      let mr ← match regexLabelClass "Median Rows: " digitDot p.2 with
               | none => .ok (0 : Rat)
               | some g => floatOfClassRun g
      .ok (dinsert acc day_name ⟨mf, mr⟩)
    else .ok acc) []

def extract_entity_stats (content : String) :
    Except PyError (List (String × List (String × EntityDayStats))) :=
  match findTableBlock "Entity Statistics by Day of Week" content with
  | none => .ok []
  | some table_str =>
      let rows := pySplitChar (pyStrip table_str) '\n'
      match rows.filter (fun r => pyIn "Entity" r && pyIn "Monday" r) with
      | [] => .error .indexError  -- `[r for r in rows if …][0]` on an empty list
      | header_row :: _ =>
          let days := (rowCols header_row).drop 1
          let data_rows := rows.filter fun r =>
            startsWithChar r '|' && !pyIn "---" r && !pyIn "Entity" r
          data_rows.foldlM (fun stats row =>
            match rowCols row with
            | [] => .ok stats
            | entity :: cellRest =>
                (entityDayFold days cellRest).map fun m => dinsert stats entity m) []

def extract_empty_file_stats (content : String) : List (String × List (String × Rat)) :=
  match findTableBlock "Day-of-Week Summary" content with
  | none => []
  | some table_str =>
      let rows := pySplitChar (pyStrip table_str) '\n'
      let data_rows := rows.filter fun r =>
        startsWithChar r '|' && !pyIn "---" r && !pyIn "Row Statistics" r
      data_rows.foldl (fun stats row =>
        let cols := rowCols row
        if 3 ≤ cols.length then
          let day := cols.getD 0 ""
          let empty_analysis := cols.getD 2 ""
          let day_stats := (pySplitStr empty_analysis "<br>").foldl (fun ds line =>
            if pyIn ":" line then
              match pySplitFirst line ":" with
              | [k0, v0] =>
                  let key := pyReplace (pyReplace (pyLower (pyStrip k0)) "• " "") "•" ""
                  let val := pyStrip v0
                  if pyFloatCheck val then dinsert ds key (ratOfDecimal val.toList) else ds
              | _ => ds
            else ds) []
          dinsert stats day day_stats
        else stats) []

/-- `CVParser.parse` on the already-read document text.  (Reading the file
itself is the caller's concern and outside this model.) -/
def parse (content : String) : Except PyError SourceCV := do
  let source_id := extract_source_id content
  let expected_files := extract_file_stats content
  let upload_window ← extract_upload_window content
  let filename_patterns := extract_filename_patterns content
  let entity_stats ← extract_entity_stats content
  let empty_file_stats := extract_empty_file_stats content
  return { source_id := source_id
           expected_files_by_day := expected_files
           upload_window_by_day := upload_window
           filename_patterns := filename_patterns
           entity_stats := entity_stats
           empty_file_stats := empty_file_stats }

end CVParser

/-! ## Detectors (src/agent/detectors.py)

Each `detect` takes the day's batch, the source profile and the evaluation
date (`current_date` is constructed at midnight by the engine, so a civil
`Date` suffices). -/

namespace MissingFileDetector

/-- The file-count incident of `MissingFileDetector.detect`. -/
def countIncident (cv : SourceCV) (st : FileDayStats) (threshold found : Nat) : Incident :=
  { incident_type := .MISSING_FILE
    severity := .URGENT
    description := "Expected at least " ++ toString threshold ++ " files (mean " ++
      toString st.mean ++ "), but found " ++ toString found ++ "."
    recommendation := "Contact provider to confirm generation and request immediate re-delivery."
    source_id := cv.source_id
    details := [("expected_min", .nat threshold), ("found", .nat found),
                ("cv_min", .nat st.min), ("cv_mean", .rat st.mean)] }

/-- The per-entity incident of `MissingFileDetector.detect`. -/
def entityIncident (cv : SourceCV) (entity : String) : Incident :=
  { incident_type := .MISSING_FILE
    severity := .URGENT
    description := "Expected files for entity \x27" ++ entity ++ "\x27 but none received."
    recommendation := "Verify if \x27" ++ entity ++ "\x27 generated files today and request re-delivery."
    source_id := cv.source_id
    details := [("entity", .str entity)] }

/-- The set (as a list) of entities attributed to some file of the batch:
for each file, the first entity key whose `_{entity}_` pattern is a
substring of the filename. -/
def presentEntities (files : List FileMetadata) (keys : List String) : List String :=
  files.filterMap fun f => keys.find? fun e => pyIn ("_" ++ e ++ "_") f.filename

def detect (files : List FileMetadata) (cv : SourceCV) (current_date : Date) : List Incident :=
  match dget? cv.expected_files_by_day current_date.weekday.abbrevName with
  | none => []
  | some st =>
      let min_files := st.min
      let threshold : Nat :=
        if min_files = 0 then (if 0 < st.median ∨ 0 < st.mode then 1 else 0) else min_files
      let base :=
        if files.length < threshold then [countIncident cv st threshold files.length] else []
      let present := presentEntities files (cv.entity_stats.map Prod.fst)
      let entityIncs := cv.entity_stats.filterMap fun es =>
        match dget? es.2 current_date.weekday.fullName with
        | none => none
        | some ds =>
            if 0 < ds.median_files ∧ !present.contains es.1 then
              some (entityIncident cv es.1)
            else none
      base ++ entityIncs

end MissingFileDetector

namespace DuplicatedFailedFileDetector

def flagCond (f : FileMetadata) : Bool :=
  f.is_duplicated || f.status == "STOPPED" || f.status == "failed"

def flagIncident (cv : SourceCV) (f : FileMetadata) : Incident :=
  { incident_type := .DUPLICATED_FILE
    severity := .URGENT
    description := "File " ++ f.filename ++ " is duplicated or failed."
    recommendation := "Check file status and re-process if needed."
    source_id := cv.source_id
    file_name := some f.filename
    details := [("status", .str f.status), ("is_duplicated", .bool f.is_duplicated)] }

def nameIncident (cv : SourceCV) (f : FileMetadata) : Incident :=
  { incident_type := .DUPLICATED_FILE
    severity := .URGENT
    description := "File " ++ f.filename ++ " has a duplicate name."
    recommendation := "Check for duplicate uploads."
    source_id := cv.source_id
    file_name := some f.filename }

/-- The loop of `DuplicatedFailedFileDetector.detect`, with the
`seen_filenames` accumulator made explicit. -/
def detectGo (cv : SourceCV) : List FileMetadata → List String → List Incident
  | [], _ => []
  | f :: rest, seen =>
      (if flagCond f then [flagIncident cv f] else []) ++
      (if seen.contains f.filename then [nameIncident cv f] else []) ++
      detectGo cv rest (f.filename :: seen)

def detect (files : List FileMetadata) (cv : SourceCV) (_current_date : Date) : List Incident :=
  detectGo cv files []

end DuplicatedFailedFileDetector

namespace UnexpectedEmptyFileDetector

/-- The weekday's `max` empty-file statistic:
`cv.empty_file_stats.get(day_name, {}).get("max", 0)`. -/
def maxEmptyStat (cv : SourceCV) (current_date : Date) : Rat :=
  (dget? ((dget? cv.empty_file_stats current_date.weekday.abbrevName).getD []) "max").getD 0

def emptyIncident (cv : SourceCV) (f : FileMetadata) (max_empty : Rat) : Incident :=
  { incident_type := .UNEXPECTED_EMPTY
    severity := .URGENT
    description := "File " ++ f.filename ++ " is empty (0 rows)."
    recommendation := "Verify if the empty file is expected."
    source_id := cv.source_id
    file_name := some f.filename
    details := [("rows", .nat f.rows), ("max_expected_empty", .rat max_empty)] }

def detect (files : List FileMetadata) (cv : SourceCV) (current_date : Date) : List Incident :=
  files.filterMap fun f =>
    if f.rows = 0 then
      if 0 < maxEmptyStat cv current_date then none
      else some (emptyIncident cv f (maxEmptyStat cv current_date))
    else none

end UnexpectedEmptyFileDetector

namespace UnexpectedVolumeVariationDetector

def surgeIncident (cv : SourceCV) (total_files max_files : Nat) : Incident :=
  { incident_type := .VOLUME_VARIATION
    severity := .NEEDS_ATTENTION
    description := "Total files (" ++ toString total_files ++
      ") significantly higher than expected max (" ++ toString max_files ++ ")."
    recommendation := "Investigate the surge in files."
    source_id := cv.source_id
    details := [("total_files", .nat total_files), ("expected_max", .nat max_files)] }

def rowsIncident (cv : SourceCV) (f : FileMetadata) (median_rows : Rat) : Incident :=
  { incident_type := .VOLUME_VARIATION
    severity := .NEEDS_ATTENTION
    description := "File " ++ f.filename ++ " has " ++ toString f.rows ++
      " rows, deviating from median " ++ toString median_rows ++ "."
    recommendation := "Check for data completeness or duplication."
    source_id := cv.source_id
    file_name := some f.filename
    details := [("rows", .nat f.rows), ("median_rows", .rat median_rows)] }

def detect (files : List FileMetadata) (cv : SourceCV) (current_date : Date) : List Incident :=
  match dget? cv.expected_files_by_day current_date.weekday.abbrevName with
  | none => []
  | some stats =>
      let total_files := files.length
      let max_files := stats.max
      -- `total_files > max_files * 1.5 and max_files > 0`
      let surge :=
        if (max_files : Rat) * 3 / 2 < (total_files : Rat) ∧ 0 < max_files then
          [surgeIncident cv total_files max_files]
        else []
      let perFile := files.filterMap fun f =>
        match (cv.entity_stats.map Prod.fst).find? (fun e => pyIn ("_" ++ e ++ "_") f.filename) with
        | none => none
        | some entity =>
            match dget? ((dget? cv.entity_stats entity).getD []) current_date.weekday.fullName with
            | none => none
            | some eds =>
                -- `rows > median * 3 or rows < median * 0.1` (0.1 as the exact 1/10)
                if 0 < eds.median_rows ∧
                    (eds.median_rows * 3 < (f.rows : Rat) ∨ (f.rows : Rat) < eds.median_rows / 10) then
                  some (rowsIncident cv f eds.median_rows)
                else none
      surge ++ perFile

end UnexpectedVolumeVariationDetector

namespace LateUploadDetector

/-- Microseconds-since-epoch of the tolerance deadline: the window-end time
of day placed on the evaluation date, plus the fixed 4-hour grace period. -/
def toleranceDeadlineMicros (d : Date) (t : TimeHMS) : Int :=
  d.toOrdinal * 86400000000 +
    (((t.hour * 3600 + t.min * 60 + t.sec) * 1000000 : Nat) : Int) + 14400000000

def lateIncident (cv : SourceCV) (end_time_str : String) (d : Date) (t : TimeHMS)
    (f : FileMetadata) (u : NaiveDT) : Incident :=
  { incident_type := .LATE_UPLOAD
    severity := .NEEDS_ATTENTION
    description := "File " ++ f.filename ++ " uploaded at " ++ renderDT u ++
      ", significantly after expected " ++ end_time_str ++ "."
    recommendation := "Monitor upload delays."
    source_id := cv.source_id
    file_name := some f.filename
    details := [("uploaded_at", .str (renderDT u)),
                ("expected_end", .str (renderDT ⟨d, t.hour, t.min, t.sec, 0⟩))] }

/-- The per-file loop.  A timestamp that fails to parse raises inside the
`try`, so the incidents accumulated so far are returned unchanged. -/
def detectGo (cv : SourceCV) (end_time_str : String) (d : Date) (t : TimeHMS) :
    List FileMetadata → List Incident
  | [] => []
  | f :: rest =>
      match parseIsoDT f.uploaded_at with
      | none => []
      | some u =>
          (if toleranceDeadlineMicros d t < u.toMicros then [lateIncident cv end_time_str d t f u]
           else []) ++ detectGo cv end_time_str d t rest

def detect (files : List FileMetadata) (cv : SourceCV) (current_date : Date) : List Incident :=
  match dget? cv.upload_window_by_day current_date.weekday.abbrevName with
  | none => []
  | some w =>
      match w.endT with
      | none => []
      | some end_time_str =>
          if end_time_str = "" then []
          else
            match parseHMS end_time_str with
            | none => []  -- strptime raised before any incident was accumulated
            | some t => detectGo cv end_time_str current_date t files

end LateUploadDetector

namespace PreviousFileDetector

/-- `re.search(r'_(\d{8})\.csv$', filename)`: the 8-digit group when the
filename ends with an underscore, eight digits and `.csv`. -/
def dateSuffix8 (filename : String) : Option (List Char) :=
  match filename.toList.reverse with
  | 'v' :: 's' :: 'c' :: '.' :: a8 :: a7 :: a6 :: a5 :: a4 :: a3 :: a2 :: a1 :: '_' :: _ =>
      if [a1, a2, a3, a4, a5, a6, a7, a8].all isAsciiDigit then
        some [a1, a2, a3, a4, a5, a6, a7, a8]
      else none
  | _ => none

/-- `datetime.strptime(s, "%Y%m%d").date()` on an 8-digit string, `none`
when the embedded date is invalid (the `ValueError` is passed over). -/
def strptimeYmd8 (ds : List Char) : Option Date :=
  match ds with
  | [y1, y2, y3, y4, m1, m2, d1, d2] =>
      let y : Int := (natOfDigits [y1, y2, y3, y4] : Nat)
      let mo := natOfDigits [m1, m2]
      let da := natOfDigits [d1, d2]
      if 1 ≤ y && 1 ≤ mo && mo ≤ 12 && 1 ≤ da && da ≤ daysInMonth y mo then
        some ⟨y, mo, da⟩
      else none
  | _ => none

/-- The embedded `_YYYYMMDD.csv` date of a filename, when present and valid. -/
def fileDateSuffix (filename : String) : Option Date :=
  (dateSuffix8 filename).bind strptimeYmd8

def previousIncident (cv : SourceCV) (f : FileMetadata) (file_date : Date) : Incident :=
  { incident_type := .PREVIOUS_FILE
    severity := .ALL_GOOD
    description := "File " ++ f.filename ++ " is from a previous period (" ++
      renderDate file_date ++ ")."
    recommendation := "No action needed, historical upload."
    source_id := cv.source_id
    file_name := some f.filename
    details := [("file_date", .str (renderDate file_date))] }

def detect (files : List FileMetadata) (cv : SourceCV) (current_date : Date) : List Incident :=
  files.filterMap fun f =>
    match dateSuffix8 f.filename with
    | none => none
    | some ds =>
        match strptimeYmd8 ds with
        | none => none
        | some file_date =>
            if file_date.toOrdinal < current_date.toOrdinal - 2 then
              some (previousIncident cv f file_date)
            else none

end PreviousFileDetector

/-! ## Consolidation (src/agent/report.py) -/

namespace ReportGenerator

def consolidate_source (source_id : String) (incidents : List Incident)
    (processed_count : Nat) (total_rows : Nat) : SourceReport :=
  let urgent_incidents := incidents.filter fun i => i.severity == .URGENT
  let attention_incidents := incidents.filter fun i => i.severity == .NEEDS_ATTENTION
  let status :=
    if urgent_incidents.length ≥ 1 then IncidentSeverity.URGENT
    else if attention_incidents.length > 0 then
      (if attention_incidents.length > 3 then IncidentSeverity.URGENT
       else IncidentSeverity.NEEDS_ATTENTION)
    else IncidentSeverity.ALL_GOOD
  { source_id := source_id
    status := status
    incidents := incidents
    processed_files_count := processed_count
    total_rows := total_rows }

end ReportGenerator

/-! ## The per-source pipeline of `Agent.run` (src/agent/core.py) -/

namespace Agent

/-- All six detectors run in registration order, results concatenated. -/
def runDetectors (files : List FileMetadata) (cv : SourceCV) (current_date : Date) :
    List Incident :=
  MissingFileDetector.detect files cv current_date ++
  DuplicatedFailedFileDetector.detect files cv current_date ++
  UnexpectedEmptyFileDetector.detect files cv current_date ++
  UnexpectedVolumeVariationDetector.detect files cv current_date ++
  LateUploadDetector.detect files cv current_date ++
  PreviousFileDetector.detect files cv current_date

/-- Detection plus source consolidation for one source. -/
def runSource (source_id : String) (files : List FileMetadata) (cv : SourceCV)
    (current_date : Date) : SourceReport :=
  ReportGenerator.consolidate_source source_id (runDetectors files cv current_date)
    files.length (files.foldl (fun a f => a + f.rows) 0)

end Agent

/-! ## Specification-side definitions

These restate policies in the specification's words, to be compared with
the behaviour of the embedded code. -/

namespace Spec

/-- Source severity policy of §4.3: Urgent if at least one Urgent incident;
else Urgent if more than 3 NeedsAttention incidents; else NeedsAttention if
at least one; else AllGood. -/
def sourceStatus (incidents : List Incident) : IncidentSeverity :=
  if 0 < incidents.countP (fun i => i.severity == IncidentSeverity.URGENT) then
    IncidentSeverity.URGENT
  else if 3 < incidents.countP (fun i => i.severity == IncidentSeverity.NEEDS_ATTENTION) then
    IncidentSeverity.URGENT
  else if 0 < incidents.countP (fun i => i.severity == IncidentSeverity.NEEDS_ATTENTION) then
    IncidentSeverity.NEEDS_ATTENTION
  else IncidentSeverity.ALL_GOOD

/-- The zero-inflation policy of §4.2: effective minimum is 1 when
`min == 0` and `median > 0 or mode > 0`, otherwise `min` itself. -/
def effectiveMinimum (st : FileDayStats) : Nat :=
  if st.min = 0 ∧ (0 < st.median ∨ 0 < st.mode) then 1 else st.min

end Spec

/-! ## Shared helper lemmas -/

/-- The status computed by `consolidate_source` agrees with the
specification's severity policy. -/
lemma consolidate_source_status (sid : String) (incidents : List Incident) (p t : Nat) :
    (ReportGenerator.consolidate_source sid incidents p t).status =
      Spec.sourceStatus incidents := by
  unfold ReportGenerator.consolidate_source Spec.sourceStatus
  simp only [← List.countP_eq_length_filter]
  split_ifs <;> first | rfl | omega

/-- Consolidation only reads the counts of Urgent / NeedsAttention
incidents, so dropping AllGood-severity incidents does not change it. -/
lemma sourceStatus_filter_not_allgood (incidents : List Incident) :
    Spec.sourceStatus (incidents.filter fun i => !(i.severity == IncidentSeverity.ALL_GOOD)) =
      Spec.sourceStatus incidents := by
  unfold Spec.sourceStatus
  rw [List.countP_filter, List.countP_filter]
  have hu : incidents.countP
      (fun i => i.severity == IncidentSeverity.URGENT &&
        !(i.severity == IncidentSeverity.ALL_GOOD)) =
      incidents.countP (fun i => i.severity == IncidentSeverity.URGENT) := by
    apply List.countP_congr
    intro i _
    cases h : i.severity <;> simp [h]
  have hn : incidents.countP
      (fun i => i.severity == IncidentSeverity.NEEDS_ATTENTION &&
        !(i.severity == IncidentSeverity.ALL_GOOD)) =
      incidents.countP (fun i => i.severity == IncidentSeverity.NEEDS_ATTENTION) := by
    apply List.countP_congr
    intro i _
    cases h : i.severity <;> simp [h]
  rw [hu, hn]

/-! ## Claim C1 — missing-file zero-inflation and threshold -/

/-- Does an incident carry the `expected_min` diagnostic (i.e. is it the
file-count incident rather than an entity-presence one)? -/
def hasExpectedMinDetail (i : Incident) : Bool :=
  (dget? i.details "expected_min").isSome

/-- An Urgent MissingFile incident whose effective minimum is 1. -/
def isEffMinOneUrgentMissing (i : Incident) : Bool :=
  i.incident_type == IncidentType.MISSING_FILE &&
  i.severity == IncidentSeverity.URGENT &&
  dget? i.details "expected_min" == some (DetailValue.nat 1)

lemma hasExpectedMinDetail_entityIncident (cv : SourceCV) (e : String) :
    hasExpectedMinDetail (MissingFileDetector.entityIncident cv e) = false := rfl

lemma isEffMinOne_entityIncident (cv : SourceCV) (e : String) :
    isEffMinOneUrgentMissing (MissingFileDetector.entityIncident cv e) = false := rfl

/-- The code's threshold expression equals the specification's
zero-inflation formula. -/
lemma code_threshold_eq_spec (st : FileDayStats) :
    (if st.min = 0 then (if 0 < st.median ∨ 0 < st.mode then 1 else 0) else st.min) =
      Spec.effectiveMinimum st := by
  unfold Spec.effectiveMinimum
  by_cases h0 : st.min = 0
  · by_cases hp : 0 < st.median ∨ 0 < st.mode
    · simp [h0, hp]
    · simp [h0, hp]
  · simp [h0]

/-- The entity-presence incidents never carry `expected_min`. -/
lemma filter_detail_entityIncs (q : Incident → Bool)
    (hq : ∀ cv e, q (MissingFileDetector.entityIncident cv e) = false)
    (cv : SourceCV) (present : List String) (day : String) :
    (cv.entity_stats.filterMap fun es =>
      match dget? es.2 day with
      | none => none
      | some ds =>
          if 0 < ds.median_files ∧ !present.contains es.1 then
            some (MissingFileDetector.entityIncident cv es.1)
          else none).filter q = [] := by
  rw [List.filter_eq_nil_iff]
  intro i hi
  obtain ⟨es, _, hsome⟩ := List.mem_filterMap.mp hi
  cases hds : dget? es.2 day with
  | none => simp [hds] at hsome
  | some ds =>
      simp only [hds] at hsome
      by_cases hc : 0 < ds.median_files ∧ !present.contains es.1
      · rw [if_pos hc] at hsome
        cases hsome
        rw [hq]
        simp
      · rw [if_neg hc] at hsome
        cases hsome

/-- The counterexample profile: `min = 2` with `median = 3 > 0` for
Tuesday. -/
def cvC1 : SourceCV :=
  { source_id := "src-c1"
    expected_files_by_day :=
      [("Tue", { mean := 0, median := 3, mode := 0, min := 2, max := 4, std_dev := 0 })]
    upload_window_by_day := []
    filename_patterns := []
    entity_stats := []
    empty_file_stats := [] }

/-- C1 counterexample: 2025-09-09 is a Tuesday; the batch is empty and the
Tuesday `median` expected count is 3 > 0, so the claim demands exactly one
Urgent MissingFile incident with effective minimum 1 — but `min = 2`, so the
code's only incident carries effective minimum 2, and no incident with
effective minimum 1 exists. -/
theorem claim_c1_counterexample :
    ¬ ((MissingFileDetector.detect [] cvC1 ⟨2025, 9, 9⟩).filter
        isEffMinOneUrgentMissing).length = 1 := by decide

/-- C1 (amended): with stats present for the day, the file-count incident
(the one carrying `expected_min`) is raised iff `len(files)` is below the
effective minimum of the zero-inflation policy, and carries exactly that
effective minimum; and when additionally `min == 0`, an empty batch with
`median > 0` or `mode > 0` yields exactly one Urgent MissingFile incident
with effective minimum 1. -/
theorem claim_c1_missing_file_threshold (files : List FileMetadata) (cv : SourceCV)
    (d : Date) (st : FileDayStats)
    (h : dget? cv.expected_files_by_day d.weekday.abbrevName = some st) :
    ((MissingFileDetector.detect files cv d).filter hasExpectedMinDetail =
      if files.length < Spec.effectiveMinimum st then
        [MissingFileDetector.countIncident cv st (Spec.effectiveMinimum st) files.length]
      else [])
    ∧ (files = [] → st.min = 0 → (0 < st.median ∨ 0 < st.mode) →
        ((MissingFileDetector.detect files cv d).filter isEffMinOneUrgentMissing).length = 1) := by
  have hd : MissingFileDetector.detect files cv d =
      (if files.length < Spec.effectiveMinimum st then
        [MissingFileDetector.countIncident cv st (Spec.effectiveMinimum st) files.length]
       else []) ++
      (cv.entity_stats.filterMap fun es =>
        match dget? es.2 d.weekday.fullName with
        | none => none
        | some ds =>
            if 0 < ds.median_files ∧
                !(MissingFileDetector.presentEntities files
                    (cv.entity_stats.map Prod.fst)).contains es.1 then
              some (MissingFileDetector.entityIncident cv es.1)
            else none) := by
    unfold MissingFileDetector.detect
    rw [h, ← code_threshold_eq_spec]
  constructor
  · rw [hd, List.filter_append,
      filter_detail_entityIncs hasExpectedMinDetail hasExpectedMinDetail_entityIncident,
      List.append_nil]
    by_cases hlt : files.length < Spec.effectiveMinimum st
    · rw [if_pos hlt]; rfl
    · rw [if_neg hlt]; rfl
  · intro hfe h0 hp
    subst hfe
    have heff : Spec.effectiveMinimum st = 1 := by
      unfold Spec.effectiveMinimum; rw [if_pos ⟨h0, hp⟩]
    rw [hd, heff, List.filter_append,
      filter_detail_entityIncs isEffMinOneUrgentMissing isEffMinOne_entityIncident,
      List.append_nil, if_pos (by decide : ([] : List FileMetadata).length < 1)]
    rfl

def cvC1w : SourceCV :=
  { source_id := "src-c1w"
    expected_files_by_day :=
      [("Tue", { mean := 2, median := 2, mode := 2, min := 0, max := 3, std_dev := 0 })]
    upload_window_by_day := []
    filename_patterns := []
    entity_stats := [("ACME", [("Tuesday", { median_files := 1, median_rows := 10 })])]
    empty_file_stats := [] }

def stC1w : FileDayStats := { mean := 2, median := 2, mode := 2, min := 0, max := 3, std_dev := 0 }

/-- Witness for C1 (amended): Tuesday has `min = 0`, `median = 2 > 0`; the
empty batch raises the zero-inflated file-count incident with effective
minimum 1 — exactly one such incident even though the entity-presence check
also fires. -/
theorem claim_c1_witness :
    dget? cvC1w.expected_files_by_day (Date.weekday ⟨2025, 9, 9⟩).abbrevName = some stC1w
    ∧ (MissingFileDetector.detect [] cvC1w ⟨2025, 9, 9⟩).filter hasExpectedMinDetail =
        [MissingFileDetector.countIncident cvC1w stC1w (Spec.effectiveMinimum stC1w) 0]
    ∧ ((MissingFileDetector.detect [] cvC1w ⟨2025, 9, 9⟩).filter
        isEffMinOneUrgentMissing).length = 1 := by
  refine ⟨by decide, ?_, ?_⟩
  · exact ((claim_c1_missing_file_threshold [] cvC1w ⟨2025, 9, 9⟩ stC1w (by decide)).1).trans
      (by decide)
  · exact (claim_c1_missing_file_threshold [] cvC1w ⟨2025, 9, 9⟩ stC1w (by decide)).2
      rfl (by decide) (by decide)

/-! ## Claim C2 — source consolidation severity policy -/

/-- A NeedsAttention incident used for the 3-vs-4 threshold facts. -/
def attnC2 : Incident :=
  { incident_type := .VOLUME_VARIATION
    severity := .NEEDS_ATTENTION
    description := "d", recommendation := "r", source_id := "s" }

/-- C2: `consolidate_source` returns Urgent iff there is an Urgent incident
or more than 3 NeedsAttention incidents; else NeedsAttention iff there is at
least one; else AllGood.  AllGood-severity incidents never affect the
result; exactly 3 NeedsAttention incidents (no Urgent) give NeedsAttention
and 4 give Urgent. -/
theorem claim_c2_consolidation_policy (sid : String) (incidents : List Incident) (p t : Nat) :
    (ReportGenerator.consolidate_source sid incidents p t).status = Spec.sourceStatus incidents
    ∧ (ReportGenerator.consolidate_source sid
        (incidents.filter fun i => !(i.severity == IncidentSeverity.ALL_GOOD)) p t).status
        = (ReportGenerator.consolidate_source sid incidents p t).status
    ∧ (ReportGenerator.consolidate_source sid (List.replicate 3 attnC2) p t).status
        = IncidentSeverity.NEEDS_ATTENTION
    ∧ (ReportGenerator.consolidate_source sid (List.replicate 4 attnC2) p t).status
        = IncidentSeverity.URGENT := by
  refine ⟨consolidate_source_status sid incidents p t, ?_, ?_, ?_⟩
  · rw [consolidate_source_status, consolidate_source_status,
      sourceStatus_filter_not_allgood]
  · rw [consolidate_source_status]; decide
  · rw [consolidate_source_status]; decide

/-! ## Claim C3 — missing-file checks disabled for untracked weekdays -/

/-- C3: with no entry for the evaluation date's abbreviated weekday in
`expected_files_by_day`, `MissingFileDetector.detect` returns `[]` for every
batch — both the file-count check and the entity-presence check are
disabled. -/
theorem claim_c3_disabled_weekday (files : List FileMetadata) (cv : SourceCV) (d : Date)
    (h : dget? cv.expected_files_by_day d.weekday.abbrevName = none) :
    MissingFileDetector.detect files cv d = [] := by
  unfold MissingFileDetector.detect
  rw [h]

def cvC3 : SourceCV :=
  { source_id := "src-c3"
    expected_files_by_day := [("Mon", { mean := 2, median := 2, mode := 2, min := 1, max := 3, std_dev := 0 })]
    upload_window_by_day := []
    filename_patterns := []
    entity_stats := [("ACME", [("Tuesday", { median_files := 1, median_rows := 50 })])]
    empty_file_stats := [] }

def fileC3 : FileMetadata :=
  { filename := "x_ACME_20250909.csv", rows := 0, status := "OK"
    is_duplicated := false, uploaded_at := "2025-09-09T08:00:00+00:00" }

/-- Witness for C3: 2025-09-09 is a Tuesday, the profile tracks only `Mon`,
and the detector returns no incident on a nonempty batch even though the
entity table has a positive Tuesday baseline. -/
theorem claim_c3_witness :
    dget? cvC3.expected_files_by_day (Date.weekday ⟨2025, 9, 9⟩).abbrevName = none
    ∧ MissingFileDetector.detect [fileC3] cvC3 ⟨2025, 9, 9⟩ = [] :=
  ⟨by decide, claim_c3_disabled_weekday [fileC3] cvC3 ⟨2025, 9, 9⟩ (by decide)⟩

/-! ## Claim C4 — empty-file tolerance -/

def cvC4 : SourceCV :=
  { source_id := "src-c4"
    expected_files_by_day := []
    upload_window_by_day := []
    filename_patterns := []
    entity_stats := []
    empty_file_stats := [("Mon", [("min", 0), ("max", 1), ("mean", mkRat 2 5)])] }

def fileC4 : FileMetadata :=
  { filename := "pos_20250908.csv", rows := 0, status := "OK"
    is_duplicated := false, uploaded_at := "2025-09-08T08:00:00+00:00" }

/-- C4: if the weekday's empty-file `max` statistic (abbreviated label,
default 0 when absent) is positive, no incident is raised for any file;
otherwise exactly the files with `rows == 0` each raise an Urgent
UnexpectedEmpty incident.  Scenario: Monday `max = 1`, one empty file on a
Monday, no incidents. -/
theorem claim_c4_empty_tolerance (files : List FileMetadata) (cv : SourceCV) (d : Date) :
    (UnexpectedEmptyFileDetector.detect files cv d =
      if 0 < UnexpectedEmptyFileDetector.maxEmptyStat cv d then []
      else (files.filter fun f => f.rows == 0).map fun f =>
        UnexpectedEmptyFileDetector.emptyIncident cv f (UnexpectedEmptyFileDetector.maxEmptyStat cv d))
    ∧ (∀ i ∈ UnexpectedEmptyFileDetector.detect files cv d,
        i.severity = IncidentSeverity.URGENT ∧ i.incident_type = IncidentType.UNEXPECTED_EMPTY)
    ∧ UnexpectedEmptyFileDetector.detect [fileC4] cvC4 ⟨2025, 9, 8⟩ = [] := by
  refine ⟨?_, ?_, by decide⟩
  · unfold UnexpectedEmptyFileDetector.detect
    by_cases hpos : 0 < UnexpectedEmptyFileDetector.maxEmptyStat cv d
    · rw [if_pos hpos]
      rw [List.filterMap_eq_nil_iff]
      intro f _
      by_cases hr : f.rows = 0 <;> simp [hr, hpos]
    · rw [if_neg hpos]
      simp only [hpos, if_false]
      induction files with
      | nil => rfl
      | cons f rest ih =>
          by_cases hr : f.rows = 0
          · simp [List.filterMap_cons, List.filter_cons, hr, ih]
          · simp [List.filterMap_cons, List.filter_cons, hr, ih]
  · intro i hi
    unfold UnexpectedEmptyFileDetector.detect at hi
    obtain ⟨f, _, hsome⟩ := List.mem_filterMap.mp hi
    by_cases hr : f.rows = 0
    · rw [if_pos hr] at hsome
      by_cases hpos : 0 < UnexpectedEmptyFileDetector.maxEmptyStat cv d
      · rw [if_pos hpos] at hsome; cases hsome
      · rw [if_neg hpos] at hsome
        cases hsome
        exact ⟨rfl, rfl⟩
    · rw [if_neg hr] at hsome; cases hsome

def cvC4b : SourceCV :=
  { source_id := "src-c4b"
    expected_files_by_day := []
    upload_window_by_day := []
    filename_patterns := []
    entity_stats := []
    empty_file_stats := [] }

def fileC4b : FileMetadata :=
  { filename := "empty_20250908.csv", rows := 0, status := "OK"
    is_duplicated := false, uploaded_at := "2025-09-08T08:00:00+00:00" }

/-- Witness for C4: with no empty-file baseline (`max` defaults to 0), an
empty file's incident is an Urgent UnexpectedEmpty incident. -/
theorem claim_c4_witness :
    (UnexpectedEmptyFileDetector.emptyIncident cvC4b fileC4b 0).severity =
      IncidentSeverity.URGENT
    ∧ (UnexpectedEmptyFileDetector.emptyIncident cvC4b fileC4b 0).incident_type =
        IncidentType.UNEXPECTED_EMPTY :=
  (claim_c4_empty_tolerance [fileC4b] cvC4b ⟨2025, 9, 8⟩).2.1
    (UnexpectedEmptyFileDetector.emptyIncident cvC4b fileC4b 0) (by decide)

/-! ## Claim C5 — late-upload tolerance deadline -/

/-- With every timestamp well formed, the late-upload loop keeps exactly
the files uploaded strictly after the tolerance deadline. -/
lemma late_detectGo_eq (cv : SourceCV) (es : String) (d : Date) (t : TimeHMS)
    (files : List FileMetadata)
    (hp : ∀ f ∈ files, (parseIsoDT f.uploaded_at).isSome = true) :
    LateUploadDetector.detectGo cv es d t files =
      files.filterMap fun f =>
        (parseIsoDT f.uploaded_at).bind fun u =>
          if LateUploadDetector.toleranceDeadlineMicros d t < u.toMicros then
            some (LateUploadDetector.lateIncident cv es d t f u)
          else none := by
  induction files with
  | nil => rfl
  | cons f rest ih =>
      have hf : (parseIsoDT f.uploaded_at).isSome :=
        hp f (List.mem_cons_self f rest)
      obtain ⟨u, hu⟩ := Option.isSome_iff_exists.mp hf
      simp only [LateUploadDetector.detectGo, hu, List.filterMap_cons, Option.some_bind]
      rw [ih fun g hg => hp g (List.mem_cons_of_mem f hg)]
      by_cases hc : LateUploadDetector.toleranceDeadlineMicros d t < u.toMicros
      · simp [hc]
      · simp [hc]

/-- Every incident of the late-upload loop is a NeedsAttention LateUpload
incident. -/
lemma late_detectGo_members (cv : SourceCV) (es : String) (d : Date) (t : TimeHMS)
    (files : List FileMetadata) :
    ∀ i ∈ LateUploadDetector.detectGo cv es d t files,
      i.severity = IncidentSeverity.NEEDS_ATTENTION ∧
        i.incident_type = IncidentType.LATE_UPLOAD := by
  induction files with
  | nil =>
      intro i hi
      simp [LateUploadDetector.detectGo] at hi
  | cons f rest ih =>
      intro i hi
      simp only [LateUploadDetector.detectGo] at hi
      cases hu : parseIsoDT f.uploaded_at with
      | none => simp [hu] at hi
      | some u =>
          simp only [hu, List.mem_append] at hi
          rcases hi with hi | hi
          · by_cases hc : LateUploadDetector.toleranceDeadlineMicros d t < u.toMicros
            · rw [if_pos hc] at hi
              rw [List.mem_singleton.mp hi]
              exact ⟨rfl, rfl⟩
            · rw [if_neg hc] at hi
              cases hi
          · exact ih i hi

/-- C5: given an upload window with a parseable end time for the evaluation
date's weekday and well-formed upload timestamps, the detector raises a
NeedsAttention LateUpload incident exactly for every file whose naive
(timezone-dropped) upload timestamp is strictly after the window-end time
on the evaluation date plus the 4-hour grace period. -/
theorem claim_c5_late_upload (files : List FileMetadata) (cv : SourceCV) (d : Date)
    (w : UploadWindow) (es : String) (t : TimeHMS)
    (hw : dget? cv.upload_window_by_day d.weekday.abbrevName = some w)
    (he : w.endT = some es) (hne : ¬ es = "")
    (ht : parseHMS es = some t)
    (hp : ∀ f ∈ files, (parseIsoDT f.uploaded_at).isSome = true) :
    (LateUploadDetector.detect files cv d =
      files.filterMap fun f =>
        (parseIsoDT f.uploaded_at).bind fun u =>
          if LateUploadDetector.toleranceDeadlineMicros d t < u.toMicros then
            some (LateUploadDetector.lateIncident cv es d t f u)
          else none)
    ∧ (∀ i ∈ LateUploadDetector.detect files cv d,
        i.severity = IncidentSeverity.NEEDS_ATTENTION ∧
          i.incident_type = IncidentType.LATE_UPLOAD) := by
  have hd : LateUploadDetector.detect files cv d =
      LateUploadDetector.detectGo cv es d t files := by
    unfold LateUploadDetector.detect
    simp only [hw, he, ht, if_neg hne]
  constructor
  · rw [hd]
    exact late_detectGo_eq cv es d t files hp
  · rw [hd]
    exact late_detectGo_members cv es d t files

def cvC5 : SourceCV :=
  { source_id := "src-c5"
    expected_files_by_day := []
    upload_window_by_day := [("Mon", { start := some "08:00:00", endT := some "09:00:00" })]
    filename_patterns := []
    entity_stats := []
    empty_file_stats := [] }

def wC5 : UploadWindow := { start := some "08:00:00", endT := some "09:00:00" }

def fileC5a : FileMetadata :=
  { filename := "a.csv", rows := 1, status := "OK"
    is_duplicated := false, uploaded_at := "2025-09-08T14:05:00+00:00" }

def fileC5b : FileMetadata :=
  { filename := "b.csv", rows := 1, status := "OK"
    is_duplicated := false, uploaded_at := "2025-09-08T12:30:00+00:00" }

/-- Witness for C5, the specification's scenario: window end 09:00:00 on
Monday 2025-09-08; the 14:05:00 upload is past 13:00 and yields the single
incident, the 12:30:00 upload yields none. -/
theorem claim_c5_witness :
    dget? cvC5.upload_window_by_day (Date.weekday ⟨2025, 9, 8⟩).abbrevName = some wC5
    ∧ wC5.endT = some "09:00:00"
    ∧ parseHMS "09:00:00" = some ⟨9, 0, 0⟩
    ∧ LateUploadDetector.detect [fileC5a, fileC5b] cvC5 ⟨2025, 9, 8⟩ =
        [LateUploadDetector.lateIncident cvC5 "09:00:00" ⟨2025, 9, 8⟩ ⟨9, 0, 0⟩ fileC5a
          ⟨⟨2025, 9, 8⟩, 14, 5, 0, 0⟩] := by
  refine ⟨by decide, rfl, by decide, ?_⟩
  exact ((claim_c5_late_upload [fileC5a, fileC5b] cvC5 ⟨2025, 9, 8⟩ wC5 "09:00:00" ⟨9, 0, 0⟩
    (by decide) rfl (by decide) (by decide) (by decide)).1).trans (by decide)

/-! ## Claim C6 — duplicated / failed file detection -/

lemma string_contains_nil (x : String) : ([] : List String).contains x = false := rfl

/-- `detectGo` with accumulator `seen` produces, per file in order, the
flag incident and then the duplicate-name incident, where a name counts as
duplicate when it is in `seen` or among the filenames of the batch prefix
before it. -/
lemma dup_detectGo_eq (cv : SourceCV) (files : List FileMetadata) :
    ∀ seen : List String,
      DuplicatedFailedFileDetector.detectGo cv files seen =
        (files.mapIdx fun i f =>
          (if DuplicatedFailedFileDetector.flagCond f then
            [DuplicatedFailedFileDetector.flagIncident cv f] else []) ++
          (if seen.contains f.filename ||
              ((files.take i).map fun g => g.filename).contains f.filename then
            [DuplicatedFailedFileDetector.nameIncident cv f] else [])).flatten := by
  induction files with
  | nil => intro seen; rfl
  | cons f rest ih =>
      intro seen
      have hfun : (fun (i : Nat) (f' : FileMetadata) =>
          (if DuplicatedFailedFileDetector.flagCond f' then
            [DuplicatedFailedFileDetector.flagIncident cv f'] else []) ++
          (if (f.filename :: seen).contains f'.filename ||
              ((rest.take i).map fun g => g.filename).contains f'.filename then
            [DuplicatedFailedFileDetector.nameIncident cv f'] else []))
          = (fun (i : Nat) (f' : FileMetadata) =>
          (if DuplicatedFailedFileDetector.flagCond f' then
            [DuplicatedFailedFileDetector.flagIncident cv f'] else []) ++
          (if seen.contains f'.filename ||
              (((f :: rest).take (i + 1)).map fun g => g.filename).contains f'.filename then
            [DuplicatedFailedFileDetector.nameIncident cv f'] else [])) := by
        funext i f'
        simp only [List.take_succ_cons, List.map_cons, List.contains_cons,
          Bool.or_assoc, Bool.or_left_comm]
      simp only [DuplicatedFailedFileDetector.detectGo]
      rw [ih (f.filename :: seen)]
      simp only [List.mapIdx_cons, List.flatten_cons]
      rw [hfun]
      simp [List.append_assoc]

/-- Every incident of the duplicated/failed detector is an Urgent
DuplicatedFile incident. -/
lemma dup_detectGo_members (cv : SourceCV) (files : List FileMetadata) :
    ∀ (seen : List String) (i : Incident),
      i ∈ DuplicatedFailedFileDetector.detectGo cv files seen →
      i.severity = IncidentSeverity.URGENT ∧
        i.incident_type = IncidentType.DUPLICATED_FILE := by
  induction files with
  | nil =>
      intro seen i hi
      simp [DuplicatedFailedFileDetector.detectGo] at hi
  | cons f rest ih =>
      intro seen i hi
      simp only [DuplicatedFailedFileDetector.detectGo, List.mem_append] at hi
      rcases hi with (hi | hi) | hi
      · by_cases hc : DuplicatedFailedFileDetector.flagCond f
        · rw [if_pos hc] at hi
          rw [List.mem_singleton.mp hi]
          exact ⟨rfl, rfl⟩
        · rw [if_neg hc] at hi
          cases hi
      · by_cases hc : seen.contains f.filename = true
        · rw [if_pos hc] at hi
          rw [List.mem_singleton.mp hi]
          exact ⟨rfl, rfl⟩
        · rw [if_neg hc] at hi
          cases hi
      · exact ih (f.filename :: seen) i hi

def cvC6 : SourceCV :=
  { source_id := "src-c6"
    expected_files_by_day := []
    upload_window_by_day := []
    filename_patterns := []
    entity_stats := []
    empty_file_stats := [] }

def fileC6 : FileMetadata :=
  { filename := "dup.csv", rows := 1, status := "STOPPED"
    is_duplicated := false, uploaded_at := "2025-09-08T08:00:00+00:00" }

/-- C6: each file raises an Urgent DuplicatedFile incident when its
duplicate flag is set or its status is exactly "STOPPED" or "failed", and,
independently, one when its filename already occurred earlier in the batch;
the incidents appear per file in batch order.  A file meeting both
conditions yields two incidents (the concrete batch `[f, f]` with `f`
STOPPED yields three in total, two for its second element). -/
theorem claim_c6_duplicated_failed (files : List FileMetadata) (cv : SourceCV) (d : Date) :
    (DuplicatedFailedFileDetector.detect files cv d =
      (files.mapIdx fun i f =>
        (if DuplicatedFailedFileDetector.flagCond f then
          [DuplicatedFailedFileDetector.flagIncident cv f] else []) ++
        (if ((files.take i).map fun g => g.filename).contains f.filename then
          [DuplicatedFailedFileDetector.nameIncident cv f] else [])).flatten)
    ∧ (∀ i ∈ DuplicatedFailedFileDetector.detect files cv d,
        i.severity = IncidentSeverity.URGENT ∧
          i.incident_type = IncidentType.DUPLICATED_FILE)
    ∧ DuplicatedFailedFileDetector.detect [fileC6, fileC6] cvC6 ⟨2025, 9, 8⟩ =
        [DuplicatedFailedFileDetector.flagIncident cvC6 fileC6,
         DuplicatedFailedFileDetector.flagIncident cvC6 fileC6,
         DuplicatedFailedFileDetector.nameIncident cvC6 fileC6] := by
  refine ⟨?_, fun i hi => dup_detectGo_members cv files [] i hi, by decide⟩
  rw [show DuplicatedFailedFileDetector.detect files cv d =
      DuplicatedFailedFileDetector.detectGo cv files [] from rfl,
    dup_detectGo_eq cv files []]
  simp only [string_contains_nil, Bool.false_or]

/-- Witness for C6: the second copy of a STOPPED file is both flagged and a
duplicate name; its duplicate-name incident is an Urgent DuplicatedFile. -/
theorem claim_c6_witness :
    (DuplicatedFailedFileDetector.nameIncident cvC6 fileC6).severity = IncidentSeverity.URGENT
    ∧ (DuplicatedFailedFileDetector.nameIncident cvC6 fileC6).incident_type =
        IncidentType.DUPLICATED_FILE :=
  (claim_c6_duplicated_failed [fileC6, fileC6] cvC6 ⟨2025, 9, 8⟩).2.1
    (DuplicatedFailedFileDetector.nameIncident cvC6 fileC6) (by decide)

/-! ## Claim C7 — previous-period file detection -/

/-- A list of AllGood-severity incidents consolidates to AllGood. -/
lemma sourceStatus_of_allgood (l : List Incident)
    (h : ∀ i ∈ l, i.severity = IncidentSeverity.ALL_GOOD) :
    Spec.sourceStatus l = IncidentSeverity.ALL_GOOD := by
  unfold Spec.sourceStatus
  have hu : l.countP (fun i => i.severity == IncidentSeverity.URGENT) = 0 := by
    rw [List.countP_eq_zero]
    intro a ha
    rw [h a ha]
    simp
  have hn : l.countP (fun i => i.severity == IncidentSeverity.NEEDS_ATTENTION) = 0 := by
    rw [List.countP_eq_zero]
    intro a ha
    rw [h a ha]
    simp
  rw [hu, hn]
  decide

def cvC7 : SourceCV :=
  { source_id := "src-c7"
    expected_files_by_day := []
    upload_window_by_day := []
    filename_patterns := []
    entity_stats := []
    empty_file_stats := [] }

def fileC7a : FileMetadata :=
  { filename := "report_20250907.csv", rows := 5, status := "OK"
    is_duplicated := false, uploaded_at := "2025-09-10T08:00:00+00:00" }

def fileC7b : FileMetadata :=
  { filename := "report_20250909.csv", rows := 5, status := "OK"
    is_duplicated := false, uploaded_at := "2025-09-10T08:00:00+00:00" }

/-- C7: the detector evaluates exactly the files with a valid
`_YYYYMMDD.csv` suffix, and raises an AllGood PreviousFile incident exactly
for those whose embedded date is more than 2 days before the evaluation
date; consolidating its incidents alone never escalates the status.
Scenario: on 2025-09-10, `_20250907.csv` yields one incident and
`_20250909.csv` none. -/
theorem claim_c7_previous_file (files : List FileMetadata) (cv : SourceCV) (d : Date) :
    (PreviousFileDetector.detect files cv d =
      files.filterMap fun f =>
        (PreviousFileDetector.fileDateSuffix f.filename).bind fun fd =>
          if fd.toOrdinal < d.toOrdinal - 2 then
            some (PreviousFileDetector.previousIncident cv f fd)
          else none)
    ∧ (∀ i ∈ PreviousFileDetector.detect files cv d,
        i.severity = IncidentSeverity.ALL_GOOD ∧
          i.incident_type = IncidentType.PREVIOUS_FILE)
    ∧ (∀ sid p t, (ReportGenerator.consolidate_source sid
        (PreviousFileDetector.detect files cv d) p t).status = IncidentSeverity.ALL_GOOD)
    ∧ (PreviousFileDetector.detect [fileC7a] cvC7 ⟨2025, 9, 10⟩).length = 1
    ∧ PreviousFileDetector.detect [fileC7b] cvC7 ⟨2025, 9, 10⟩ = [] := by
  have hmem : ∀ i ∈ PreviousFileDetector.detect files cv d,
      i.severity = IncidentSeverity.ALL_GOOD ∧
        i.incident_type = IncidentType.PREVIOUS_FILE := by
    intro i hi
    unfold PreviousFileDetector.detect at hi
    obtain ⟨f, _, hsome⟩ := List.mem_filterMap.mp hi
    cases h1 : PreviousFileDetector.dateSuffix8 f.filename with
    | none => simp [h1] at hsome
    | some ds =>
        simp only [h1] at hsome
        cases h2 : PreviousFileDetector.strptimeYmd8 ds with
        | none => simp [h2] at hsome
        | some fd =>
            simp only [h2] at hsome
            by_cases hc : fd.toOrdinal < d.toOrdinal - 2
            · rw [if_pos hc] at hsome
              cases hsome
              exact ⟨rfl, rfl⟩
            · rw [if_neg hc] at hsome
              cases hsome
  refine ⟨?_, hmem, ?_, by decide, by decide⟩
  · unfold PreviousFileDetector.detect
    have hfun : (fun (f : FileMetadata) =>
        match PreviousFileDetector.dateSuffix8 f.filename with
        | none => none
        | some ds =>
            match PreviousFileDetector.strptimeYmd8 ds with
            | none => none
            | some file_date =>
                if file_date.toOrdinal < d.toOrdinal - 2 then
                  some (PreviousFileDetector.previousIncident cv f file_date)
                else none)
        = (fun (f : FileMetadata) =>
        (PreviousFileDetector.fileDateSuffix f.filename).bind fun fd =>
          if fd.toOrdinal < d.toOrdinal - 2 then
            some (PreviousFileDetector.previousIncident cv f fd)
          else none) := by
      funext f
      unfold PreviousFileDetector.fileDateSuffix
      cases h1 : PreviousFileDetector.dateSuffix8 f.filename with
      | none => rfl
      | some ds =>
          cases h2 : PreviousFileDetector.strptimeYmd8 ds with
          | none => simp [h2]
          | some fd => simp [h2]
    rw [hfun]
  · intro sid p t
    rw [consolidate_source_status]
    exact sourceStatus_of_allgood _ fun i hi => (hmem i hi).1

/-- Witness for C7: the 2025-09-07 incident of the scenario is AllGood. -/
theorem claim_c7_witness :
    (PreviousFileDetector.previousIncident cvC7 fileC7a ⟨2025, 9, 7⟩).severity =
      IncidentSeverity.ALL_GOOD
    ∧ (PreviousFileDetector.previousIncident cvC7 fileC7a ⟨2025, 9, 7⟩).incident_type =
        IncidentType.PREVIOUS_FILE :=
  (claim_c7_previous_file [fileC7a] cvC7 ⟨2025, 9, 10⟩).2.1
    (PreviousFileDetector.previousIncident cvC7 fileC7a ⟨2025, 9, 7⟩) (by decide)

/-! ## Claim C8 — parser totality and degradation -/

/-- When a heading does not occur in the document, its table regex cannot
match. -/
lemma findTableBlock_eq_none (heading content : String)
    (h : hasSubstrS content heading = false) :
    findTableBlock heading content = none := by
  unfold hasSubstrS at h
  have hoc : occPositions heading.toList content.toList = [] := by
    cases hv : occPositions heading.toList content.toList with
    | nil => rfl
    | cons a l => rw [hv] at h; simp at h
  simp only [String.toList] at hoc
  simp [findTableBlock, hoc]

/-- The document on which the parser raises: the entity-statistics heading
is present and followed by a pipe table, but no captured row contains both
"Entity" and "Monday", so `[r for r in rows if 'Entity' in r and
'Monday' in r][0]` raises `IndexError`. -/
def badEntityDoc : String := "Entity Statistics by Day of Week\n|x|\n"

/-- C8 counterexample: `parse` raises on a perfectly readable document, so
"the only fatal condition is inability to read the source document" is
false. -/
theorem claim_c8_counterexample :
    CVParser.parse badEntityDoc = Except.error PyError.indexError := by rfl

/-- C8 (amended): the parser never raises for structurally missing
sections — each of the four section extractors returns its empty/default
mapping when its heading is absent — and the guarded numeric coercions of
the file-count and day-of-week-summary tables never raise, coercing
non-numeric cells to 0.  (Reading failure is however not the only fatal
condition: a malformed *present* entity-statistics section raises, see the
counterexample.) -/
theorem claim_c8_parser_degradation (content : String) (s : String) :
    (hasSubstrS content "File Processing Statistics by Day" = false →
      CVParser.extract_file_stats content = [])
    ∧ (hasSubstrS content "Upload Schedule Patterns by Day" = false →
      CVParser.extract_upload_window content = Except.ok [])
    ∧ (hasSubstrS content "Entity Statistics by Day of Week" = false →
      CVParser.extract_entity_stats content = Except.ok [])
    ∧ (hasSubstrS content "Day-of-Week Summary" = false →
      CVParser.extract_empty_file_stats content = [])
    ∧ (pyFloatCheck s = false → pyFloat s = 0)
    ∧ (pyIsDigit s = false → pyInt s = 0) := by
  refine ⟨?_, ?_, ?_, ?_, ?_, ?_⟩
  · intro h
    unfold CVParser.extract_file_stats
    rw [findTableBlock_eq_none _ _ h]
  · intro h
    unfold CVParser.extract_upload_window
    rw [findTableBlock_eq_none _ _ h]
  · intro h
    unfold CVParser.extract_entity_stats
    rw [findTableBlock_eq_none _ _ h]
  · intro h
    unfold CVParser.extract_empty_file_stats
    rw [findTableBlock_eq_none _ _ h]
  · intro h
    unfold pyFloat
    rw [h]
    rfl
  · intro h
    unfold pyInt
    rw [h]
    rfl

def plainDocC8 : String := "no tables in this document"

/-- Witness for C8 (amended) on a document with no headings and a
non-numeric cell value. -/
theorem claim_c8_witness :
    CVParser.extract_file_stats plainDocC8 = []
    ∧ CVParser.extract_upload_window plainDocC8 = Except.ok []
    ∧ CVParser.extract_entity_stats plainDocC8 = Except.ok []
    ∧ CVParser.extract_empty_file_stats plainDocC8 = []
    ∧ pyFloat "N/A" = 0
    ∧ pyInt "N/A" = 0 :=
  ⟨(claim_c8_parser_degradation plainDocC8 "N/A").1 (by decide),
   (claim_c8_parser_degradation plainDocC8 "N/A").2.1 (by decide),
   (claim_c8_parser_degradation plainDocC8 "N/A").2.2.1 (by decide),
   (claim_c8_parser_degradation plainDocC8 "N/A").2.2.2.1 (by decide),
   (claim_c8_parser_degradation plainDocC8 "N/A").2.2.2.2.1 (by decide),
   (claim_c8_parser_degradation plainDocC8 "N/A").2.2.2.2.2 (by decide)⟩

/-! ## Claim C9 — detection and consolidation are deterministic -/

/-- C9: the detector suite and the source consolidation are pure functions
of exactly the triple (batch, profile, evaluation date) — the embedding has
no other input (no wall clock), so equal inputs give identical incident
lists and the same source status. -/
theorem claim_c9_determinism (filesA filesB : List FileMetadata) (cvA cvB : SourceCV)
    (dA dB : Date) (sid : String)
    (hf : filesA = filesB) (hc : cvA = cvB) (hd : dA = dB) :
    Agent.runDetectors filesA cvA dA = Agent.runDetectors filesB cvB dB
    ∧ Agent.runSource sid filesA cvA dA = Agent.runSource sid filesB cvB dB := by
  subst hf; subst hc; subst hd
  exact ⟨rfl, rfl⟩

def cvC9 : SourceCV :=
  { source_id := "207936"
    expected_files_by_day := [("Mon", { mean := 2, median := 2, mode := 2, min := 1, max := 3, std_dev := 0 })]
    upload_window_by_day := [("Mon", { start := some "08:00:00", endT := some "09:00:00" })]
    filename_patterns := []
    entity_stats := [("ACME", [("Monday", { median_files := 1, median_rows := 100 })])]
    empty_file_stats := [("Mon", [("max", 0)])] }

def filesC9 : List FileMetadata :=
  [{ filename := "a_ACME_settlement_20250908.csv", rows := 120, status := "OK"
     is_duplicated := false, uploaded_at := "2025-09-08T08:30:00+00:00" }]

/-- Witness for C9 at a concrete triple. -/
theorem claim_c9_witness :
    Agent.runDetectors filesC9 cvC9 ⟨2025, 9, 8⟩ = Agent.runDetectors filesC9 cvC9 ⟨2025, 9, 8⟩
    ∧ Agent.runSource "207936" filesC9 cvC9 ⟨2025, 9, 8⟩ =
        Agent.runSource "207936" filesC9 cvC9 ⟨2025, 9, 8⟩ :=
  claim_c9_determinism filesC9 filesC9 cvC9 cvC9 ⟨2025, 9, 8⟩ ⟨2025, 9, 8⟩ "207936" rfl rfl rfl

/-! ## Claim C10 — volume checks disabled for untracked weekdays -/

/-- C10: with no entry for the evaluation date's abbreviated weekday in
`expected_files_by_day`, `UnexpectedVolumeVariationDetector.detect` returns
`[]` — the early return disables the per-file median-row check too, even
when the entity table has positive baselines for that day's full name. -/
theorem claim_c10_volume_disabled (files : List FileMetadata) (cv : SourceCV) (d : Date)
    (h : dget? cv.expected_files_by_day d.weekday.abbrevName = none) :
    UnexpectedVolumeVariationDetector.detect files cv d = [] := by
  unfold UnexpectedVolumeVariationDetector.detect
  rw [h]

def cvC10 : SourceCV :=
  { source_id := "src-c10"
    expected_files_by_day := []
    upload_window_by_day := []
    filename_patterns := []
    entity_stats := [("ACME", [("Monday", { median_files := 1, median_rows := 100 })])]
    empty_file_stats := [] }

def fileC10 : FileMetadata :=
  { filename := "x_ACME_20250908.csv", rows := 1, status := "OK"
    is_duplicated := false, uploaded_at := "2025-09-08T08:00:00+00:00" }

/-- Witness for C10: 2025-09-08 is a Monday, the entity table has a positive
`Monday` median-row baseline and the file's 1 row is far below it, yet the
missing `Mon` entry disables the whole detector. -/
theorem claim_c10_witness :
    dget? cvC10.expected_files_by_day (Date.weekday ⟨2025, 9, 8⟩).abbrevName = none
    ∧ UnexpectedVolumeVariationDetector.detect [fileC10] cvC10 ⟨2025, 9, 8⟩ = [] :=
  ⟨by decide, claim_c10_volume_disabled [fileC10] cvC10 ⟨2025, 9, 8⟩ (by decide)⟩

end Simetrik
